import Mathlib

/-!
# Verification of `binance_futures.py`

Shallow embedding of the CLI in `src/binance_futures.py` and proofs about it.

The program is a thin presentation layer over an exchange-connectivity
library.  Remote calls are modelled as explicit function parameters
returning `Except` values; the console output of each command is modelled
as a list of structured "line" values, one constructor per `print`
statement, carrying exactly the data interpolated into that line.
Python floats are modelled as rationals (`ℚ`), Python dictionary values of
unconstrained type as a small `PyVal` universe with Python truthiness.
-/

/-- A Python value as it may appear in a market-metadata dictionary:
`None`, a boolean, an integer, a float, or a string. -/
inductive PyVal where
  | none
  | bool (b : Bool)
  | int (n : Int)
  | float (q : ℚ)
  | str (s : String)
deriving DecidableEq

/-- Python truthiness of a `PyVal` (`bool(v)`): `None`, `False`, `0`,
`0.0` and `""` are falsy, everything else is truthy. -/
def pyTruthy : PyVal → Bool
  | PyVal.none => false
  | PyVal.bool b => b
  | PyVal.int n => n ≠ 0
  | PyVal.float q => q ≠ 0
  | PyVal.str s => s ≠ ""

/-- Truthiness of the result of `dict.get(key)`: a missing key yields
Python `None`, which is falsy. -/
def truthyOpt : Option PyVal → Bool
  | Option.none => false
  | Option.some v => pyTruthy v

/-- One entry of the market catalog returned by `exchange.load_markets()`:
the fields `fetch_futures_pairs_data` reads.  `linear` and `active` are
accessed with `.get` (absent key allowed, any value shape), `base` and
`quote` with `[...]` (assumed present), `contractSize` with
`.get(..., 1)`. -/
structure Market where
  linear : Option PyVal
  active : Option PyVal
  base : String
  quote : String
  contractSize : Option ℚ
deriving DecidableEq

/-- The dictionary appended for each kept market (spec's TradingPair):
symbol, base asset, quote asset, contract size. -/
structure TradingPair where
  symbol : String
  base : String
  quote : String
  contract_size : ℚ
deriving DecidableEq

/-- The pair record built from a catalog entry: base/quote passed through,
`contract_size = market.get("contractSize", 1)`. -/
def mkPair (sym : String) (m : Market) : TradingPair :=
  { symbol := sym
    base := m.base
    quote := m.quote
    contract_size := m.contractSize.getD 1 }

/-- The function `fetch_futures_pairs_data` (src/binance_futures.py:31-45): iterate the
catalog in order and keep an entry iff
`market.get("linear") and market.get("active")` is truthy. -/
def fetch_futures_pairs_data (markets : List (String × Market)) : List TradingPair :=
  markets.filterMap fun p =>
    if truthyOpt p.2.linear && truthyOpt p.2.active then
      Option.some (mkPair p.1 p.2)
    else
      Option.none

/-- The pair filter as the spec words it ("the returned set contains
exactly those entries where `linear == true` and `active == true`"):
keep an entry iff both metadata values are literally the boolean `true`. -/
def fetch_futures_pairs_spec (markets : List (String × Market)) : List TradingPair :=
  markets.filterMap fun p =>
    if p.2.linear = Option.some (PyVal.bool true) ∧
       p.2.active = Option.some (PyVal.bool true) then
      Option.some (mkPair p.1 p.2)
    else
      Option.none

/-- The function `fetch_futures_pairs_data` phrased as filter-then-map: keep exactly the
entries whose `linear` and `active` values are truthy, in catalog order,
and build the pair record for each. -/
def fetch_futures_pairs_truthy (markets : List (String × Market)) : List TradingPair :=
  (markets.filter fun p => truthyOpt p.2.linear && truthyOpt p.2.active).map
    fun p => mkPair p.1 p.2

/-- A catalog entry that is truthy for both flags but whose `linear` value
is not the boolean `true` (a non-empty string). -/
def marketTruthyNotTrue : Market :=
  { linear := Option.some (PyVal.str "x")
    active := Option.some (PyVal.bool true)
    base := "ABC"
    quote := "USDT"
    contractSize := Option.none }

/-- The kind of errors the `ccxt` library raises: network errors, exchange
errors, and the generic `BaseError` catch-all (the taxonomy the legacy
handlers distinguish). -/
inductive CcxtError where
  | network (msg : String)
  | exchange (msg : String)
  | base (msg : String)
deriving DecidableEq

/-- The order book snapshot `exchange.fetch_order_book` returns: a
timestamp and the bid and ask sides, each a list of (price, amount)
levels. -/
structure OrderBookResp where
  timestamp : Option Int
  bids : List (ℚ × ℚ)
  asks : List (ℚ × ℚ)
deriving DecidableEq

/-- One console line of the `orderbook` command, one constructor per
`print` in src/binance_futures.py:94-118, carrying the interpolated
data. -/
inductive ObLine where
  | header (symbol : String)
  | timestampLine (t : Option Int)
  | counts (bids asks : Nat)
  | topBidsHeader (n : Nat)
  | bidLevel (price amount : ℚ)
  | topAsksHeader (n : Nat)
  | askLevel (price amount : ℚ)
  | spreadLine (spread spread_pct : ℚ)
deriving DecidableEq

/-- Whether an `orderbook` output line is a printed bid level. -/
def isBidLevel : ObLine → Bool
  | ObLine.bidLevel _ _ => true
  | _ => false

/-- Whether an `orderbook` output line is a printed ask level. -/
def isAskLevel : ObLine → Bool
  | ObLine.askLevel _ _ => true
  | _ => false

/-- Whether an `orderbook` output line is the spread line. -/
def isSpreadLine : ObLine → Bool
  | ObLine.spreadLine _ _ => true
  | _ => false

/-- The printing part of the `orderbook` command
(src/binance_futures.py:99-118), applied to the fetched snapshot:
`display_limit = min(10, len(bids), len(asks))`, the top `display_limit`
levels of each side, and — only when both sides are non-empty
(`if orderbook["bids"] and orderbook["asks"]`) — the spread line with
`spread = best_ask - best_bid` and `spread_pct = spread / best_ask * 100`.
`spreadLines` is that guarded spread block (src/binance_futures.py:112-118):
list truthiness means the block runs iff both sides are non-empty, and the
spread line is actually printed only when the `spread / best_ask` division
succeeds — at `best_ask = 0` line 117 raises `ZeroDivisionError` before
the `print` on line 118, so nothing is printed (the raised error is
modelled separately by `spreadRaise`). -/
def spreadLines (bids asks : List (ℚ × ℚ)) : List ObLine :=
  match bids, asks with
  | (best_bid, _) :: _, (best_ask, _) :: _ =>
    if best_ask = 0 then []
    else [ObLine.spreadLine (best_ask - best_bid) ((best_ask - best_bid) / best_ask * 100)]
  | _, _ => []

/-- The exception the spread block raises
(src/binance_futures.py:117): with both sides non-empty and
`best_ask = 0`, the Python float division `spread / best_ask` raises
`ZeroDivisionError`, which no handler in the command catches; in every
other case the block completes normally. -/
def spreadRaise (bids asks : List (ℚ × ℚ)) : Option String :=
  match bids, asks with
  | (_, _) :: _, (best_ask, _) :: _ =>
    if best_ask = 0 then Option.some "ZeroDivisionError: float division by zero"
    else Option.none
  | _, _ => Option.none

/-- The printed body of the `orderbook` command assembled in source order:
headers, top bids, top asks, then the guarded spread block. -/
def orderbookRender (sym : String) (ob : OrderBookResp) : List ObLine :=
  let display_limit := min (min 10 ob.bids.length) ob.asks.length
  [ObLine.header sym,
   ObLine.timestampLine ob.timestamp,
   ObLine.counts ob.bids.length ob.asks.length,
   ObLine.topBidsHeader display_limit]
  ++ (ob.bids.take display_limit).map (fun b => ObLine.bidLevel b.1 b.2)
  ++ [ObLine.topAsksHeader display_limit]
  ++ (ob.asks.take display_limit).map (fun a => ObLine.askLevel a.1 a.2)
  ++ spreadLines ob.bids ob.asks

/-- The `orderbook` command: fetch the book at the requested depth limit
and render it; a fetch error propagates (no handler in the command). -/
def orderbookCmd (fetch : String → Nat → Except CcxtError OrderBookResp)
    (sym : String) (limit : Nat) : Except CcxtError (List ObLine) :=
  (fetch sym limit).map (orderbookRender sym)

/-- The exchange response of claim C1's scenario: five bids, no asks. -/
def obFiveBidsNoAsks : OrderBookResp :=
  { timestamp := Option.some 1700000000000
    bids := [(5, 1), (4, 1), (3, 1), (2, 1), (1, 1)]
    asks := [] }

/-- A crossed snapshot: best bid 10 above best ask 5. -/
def obCrossed : OrderBookResp :=
  { timestamp := Option.some 1700000000000
    bids := [(10, 1)]
    asks := [(5, 2)] }

/-- A snapshot with non-empty sides whose best ask price is 0. -/
def obZeroAsk : OrderBookResp :=
  { timestamp := Option.some 1700000000000
    bids := [(1, 1)]
    asks := [(0, 2)] }

/-- An ordinary snapshot: best bid 4 below best ask 5. -/
def obBid4Ask5 : OrderBookResp :=
  { timestamp := Option.some 0
    bids := [(4, 1)]
    asks := [(5, 2)] }

/-- One trade as returned by `exchange.fetch_trades`: the fields the
`trades` command reads.  `side` is an arbitrary string (the code only
compares it against `"buy"` and `"sell"`). -/
structure Trade where
  timestamp : Int
  side : String
  price : ℚ
  amount : ℚ
deriving DecidableEq

/-- The side label the per-trade display prints
(src/binance_futures.py:136): `"BUY "` iff the side equals `"buy"`,
otherwise `"SELL"`. -/
def sideLabel (t : Trade) : String :=
  if t.side = "buy" then "BUY " else "SELL"

/-- The sum `buy_volume = sum(t["amount"] for t in trades_data if t["side"] == "buy")`
(src/binance_futures.py:141). -/
def buy_volume : List Trade → ℚ
  | [] => 0
  | t :: ts => (if t.side = "buy" then t.amount else 0) + buy_volume ts

/-- The sum `sell_volume = sum(t["amount"] for t in trades_data if t["side"] == "sell")`
(src/binance_futures.py:142). -/
def sell_volume : List Trade → ℚ
  | [] => 0
  | t :: ts => (if t.side = "sell" then t.amount else 0) + sell_volume ts

/-- The sum `total_volume = buy_volume + sell_volume` (src/binance_futures.py:143). -/
def total_volume (ts : List Trade) : ℚ :=
  buy_volume ts + sell_volume ts

/-- One console line of the `trades` command. -/
inductive TrLine where
  | header (symbol : String)
  | count (n : Nat)
  | row (timestamp : Int) (sideLabel : String) (price amount : ℚ)
  | ratio (buyPct sellPct : ℚ)
deriving DecidableEq

/-- Whether a `trades` output line is the buy/sell ratio line. -/
def isRatioLine : TrLine → Bool
  | TrLine.ratio _ _ => true
  | _ => false

/-- The slice `trades_data[-10:]`: the last (up to) ten trades. -/
def lastTen (ts : List Trade) : List Trade :=
  ts.drop (ts.length - 10)

/-- The printing part of the `trades` command
(src/binance_futures.py:127-147), applied to the fetched trade list: the
count, a row per trade of the last ten with its side label, and — only
when `total_volume > 0` — the buy/sell ratio line with
`buy_volume/total_volume*100` and `sell_volume/total_volume*100`. -/
def tradesRender (sym : String) (ts : List Trade) : List TrLine :=
  [TrLine.header sym, TrLine.count ts.length]
  ++ (lastTen ts).map (fun t => TrLine.row t.timestamp (sideLabel t) t.price t.amount)
  ++ (if 0 < total_volume ts then
        [TrLine.ratio (buy_volume ts / total_volume ts * 100)
                      (sell_volume ts / total_volume ts * 100)]
      else [])

/-- The `trades` command: fetch recent trades at the requested limit and
render them; a fetch error propagates (no handler in the command). -/
def tradesCmd (fetch : String → Nat → Except CcxtError (List Trade))
    (sym : String) (limit : Nat) : Except CcxtError (List TrLine) :=
  (fetch sym limit).map (tradesRender sym)

/-- One candle of `exchange.fetch_ohlcv`: the Python list
`[timestamp, open, high, low, close, volume]` as a record. -/
structure Candle where
  timestamp : Int
  op : ℚ
  hi : ℚ
  lo : ℚ
  cl : ℚ
  vol : ℚ
deriving DecidableEq

/-- One console line of the `ohlcv` command. -/
inductive OhLine where
  | header (symbol : String)
  | params (timeframe : String) (limit : Nat)
  | count (n : Nat)
  | candleRow (timestamp : Int) (op hi lo cl vol : ℚ)
deriving DecidableEq

/-- The printing part of the `ohlcv` command after a successful fetch
(src/binance_futures.py:73-85): the headers, the candle count and the last
(up to) ten candles. -/
def ohlcvRender (sym tf : String) (limit : Nat) (r : List Candle) : List OhLine :=
  [OhLine.header sym, OhLine.params tf limit, OhLine.count r.length]
  ++ (r.drop (r.length - 10)).map
      (fun cd => OhLine.candleRow cd.timestamp cd.op cd.hi cd.lo cd.cl cd.vol)

/-- The `ohlcv` command: the two header lines print, then
`exchange.fetch_ohlcv(symbol, timeframe, limit=limit)` is called with the
timeframe string passed through verbatim (no client-side validation); the
command has no handler, so a fetch error propagates after the headers
(second component `some e`). -/
def ohlcvCmd (fetch : String → String → Nat → Except CcxtError (List Candle))
    (sym tf : String) (limit : Nat) : List OhLine × Option CcxtError :=
  match fetch sym tf limit with
  | Except.error e => ([OhLine.header sym, OhLine.params tf limit], Option.some e)
  | Except.ok r => (ohlcvRender sym tf limit r, Option.none)

/-- Modelled from the spec: the contract of the upstream library's OHLCV
retrieval, which is not part of this repository's source — "requesting
limit=N returns a sequence of length ≤ N in strictly non-decreasing
timestamp order" (oldest first). -/
def OhlcvContract (fetch : String → String → Nat → Except CcxtError (List Candle)) : Prop :=
  ∀ sym tf limit r, fetch sym tf limit = Except.ok r →
    r.length ≤ limit ∧ List.Chain' (fun a b => a.timestamp ≤ b.timestamp) r

/-- The raw premium-index response of
`exchange.fapiPublic_get_premiumindex`: a dictionary whose five keys the
`funding` command indexes.  Each field is `Option`al — a missing key makes
the corresponding `funding[...]` access raise (inside the `try`). -/
structure FundingResp where
  symbol : Option String
  lastFundingRate : Option ℚ
  markPrice : Option ℚ
  indexPrice : Option ℚ
  nextFundingTime : Option Int
deriving DecidableEq

/-- One console line of the `funding` command. -/
inductive FuLine where
  | header (symbol : String)
  | symbolLine (s : String)
  | rate (r : ℚ)
  | mark (p : ℚ)
  | index (p : ℚ)
  | nextTime (t : Int)
  | errorLine (msg : String)
deriving DecidableEq

/-- Whether a `funding` output line is the inline error report. -/
def isErrorLine : FuLine → Bool
  | FuLine.errorLine _ => true
  | _ => false

/-- The five field prints of the `try` body
(src/binance_futures.py:161-165), in order: the lines printed before the
first missing key, and the raised error if a key is missing. -/
def fundingPrints (f : FundingResp) : List FuLine × Option String :=
  match f.symbol with
  | Option.none => ([], Option.some "KeyError: symbol")
  | Option.some s =>
    match f.lastFundingRate with
    | Option.none => ([FuLine.symbolLine s], Option.some "KeyError: lastFundingRate")
    | Option.some r =>
      match f.markPrice with
      | Option.none => ([FuLine.symbolLine s, FuLine.rate r],
                        Option.some "KeyError: markPrice")
      | Option.some m =>
        match f.indexPrice with
        | Option.none => ([FuLine.symbolLine s, FuLine.rate r, FuLine.mark m],
                          Option.some "KeyError: indexPrice")
        | Option.some i =>
          match f.nextFundingTime with
          | Option.none => ([FuLine.symbolLine s, FuLine.rate r, FuLine.mark m,
                             FuLine.index i],
                            Option.some "KeyError: nextFundingTime")
          | Option.some n => ([FuLine.symbolLine s, FuLine.rate r, FuLine.mark m,
                               FuLine.index i, FuLine.nextTime n],
                              Option.none)

/-- The `funding` command (src/binance_futures.py:151-168): print the
header, call the premium-index endpoint with `symbol.replace("/", "")`,
and print the five fields; `except Exception` around the whole body turns
any failure — of the call itself or of a field access — into the inline
`"Error fetching funding rate: ..."` line, and the command returns
normally (its result is always a plain line list, never an error). -/
def fundingCmd (remote : String → Except String FundingResp) (sym : String) : List FuLine :=
  FuLine.header sym ::
    (match remote (sym.replace "/" "") with
     | Except.error e => [FuLine.errorLine ("Error fetching funding rate: " ++ e)]
     | Except.ok f =>
       match fundingPrints f with
       | (ls, Option.some e) => ls ++ [FuLine.errorLine ("Error fetching funding rate: " ++ e)]
       | (ls, Option.none) => ls)

/-- The exchange handle as the legacy command consumes it: the four
remote queries it performs, each fallible with a `ccxt` error. -/
structure Exchange where
  load_markets : Except CcxtError (List (String × Market))
  fetch_ohlcv : String → String → Nat → Except CcxtError (List Candle)
  fetch_order_book : String → Nat → Except CcxtError OrderBookResp
  fetch_trades : String → Nat → Except CcxtError (List Trade)

/-- One console line of `main_legacy`. -/
inductive LegacyLine where
  | banner
  | pairsCount (n : Nat)
  | pairSym (s : String)
  | ohlcvCount (n : Nat)
  | obCounts (bids asks : Nat)
  | tradesCount (n : Nat)
  | done
  | networkError (msg : String)
  | exchangeError (msg : String)
  | ccxtError (msg : String)
deriving DecidableEq

/-- The line the matching `except` clause of `main_legacy` prints for an
error: `NetworkError`, `ExchangeError` and `BaseError` each get their own
short message (src/binance_futures.py:199-207). -/
def legacyLog : CcxtError → LegacyLine
  | CcxtError.network m => LegacyLine.networkError m
  | CcxtError.exchange m => LegacyLine.exchangeError m
  | CcxtError.base m => LegacyLine.ccxtError m

/-- The command `main_legacy` (src/binance_futures.py:172-207): pair listing, then
OHLCV, order book and trades fetches, strictly in sequence against the
fixed defaults `("BTC/USDT:USDT", "1h", 100)`, `("BTC/USDT:USDT", 20)`,
`("BTC/USDT:USDT", 50)`.  The first component is the console output; the
second is the re-raised error (`some e` when a fetch failed: the handler
prints its short message and re-raises, so the process exits non-zero). -/
def main_legacy (ex : Exchange) : List LegacyLine × Option CcxtError :=
  match ex.load_markets with
  | Except.error e => ([LegacyLine.banner, legacyLog e], Option.some e)
  | Except.ok ms =>
    let pairs_data := fetch_futures_pairs_data ms
    let l1 := [LegacyLine.banner, LegacyLine.pairsCount pairs_data.length]
      ++ (pairs_data.take 5).map (fun p => LegacyLine.pairSym p.symbol)
    match ex.fetch_ohlcv "BTC/USDT:USDT" "1h" 100 with
    | Except.error e => (l1 ++ [legacyLog e], Option.some e)
    | Except.ok oh =>
      let l2 := l1 ++ [LegacyLine.ohlcvCount oh.length]
      match ex.fetch_order_book "BTC/USDT:USDT" 20 with
      | Except.error e => (l2 ++ [legacyLog e], Option.some e)
      | Except.ok ob =>
        let l3 := l2 ++ [LegacyLine.obCounts ob.bids.length ob.asks.length]
        match ex.fetch_trades "BTC/USDT:USDT" 50 with
        | Except.error e => (l3 ++ [legacyLog e], Option.some e)
        | Except.ok tr =>
          (l3 ++ [LegacyLine.tradesCount tr.length, LegacyLine.done], Option.none)

/-- The `.get` results for `linear`/`active` that C10 enumerates: missing
key (Python `None`) and each falsy value. -/
def falsyGetResults : List (Option PyVal) :=
  [Option.none, Option.some PyVal.none, Option.some (PyVal.bool false),
   Option.some (PyVal.int 0), Option.some (PyVal.float 0), Option.some (PyVal.str "")]

/-- A catalog entry with no `linear` key at all. -/
def marketMissingLinear : Market :=
  { linear := Option.none
    active := Option.some (PyVal.bool true)
    base := "ABC"
    quote := "USDT"
    contractSize := Option.none }

/-- A trade history holding a single buy of amount 2. -/
def tsOneBuy : List Trade :=
  [{ timestamp := 0, side := "buy", price := 100, amount := 2 }]

/-- A trade whose side is neither `"buy"` nor `"sell"`. -/
def tradeOther : Trade :=
  { timestamp := 0, side := "liquidation", price := 100, amount := 1 }

/-- A premium-index endpoint that rejects every symbol. -/
def remoteRejecting : String → Except String FundingResp :=
  fun _ => Except.error "Invalid symbol"

/-- An exchange whose market-catalog call fails with a network error and
whose remaining calls succeed with empty data. -/
def exchangeNetworkDown : Exchange :=
  { load_markets := Except.error (CcxtError.network "Connection aborted")
    fetch_ohlcv := fun _ _ _ => Except.ok []
    fetch_order_book := fun _ _ => Except.ok { timestamp := Option.none, bids := [], asks := [] }
    fetch_trades := fun _ _ => Except.ok [] }

/-- A fixed candle. -/
def oneCandle : Candle :=
  { timestamp := 1700000000000, op := 1, hi := 2, lo := 1, cl := 2, vol := 3 }

/-- An OHLCV fetch that returns one fixed candle whenever the limit
allows, and satisfies the upstream contract. -/
def fetchOneCandle : String → String → Nat → Except CcxtError (List Candle) :=
  fun _ _ limit =>
    Except.ok (if limit = 0 then [] else [oneCandle])

/-- A `filterMap` whose function is an if-then-some is the filter by the
condition followed by the map. -/
theorem filterMap_ite_eq_filter_map (l : List (String × Market))
    (q : String × Market → Bool) :
    (l.filterMap fun p => if q p then Option.some (mkPair p.1 p.2) else Option.none)
      = (l.filter q).map fun p => mkPair p.1 p.2 := by
  induction l with
  | nil => rfl
  | cons a as ih =>
    by_cases h : q a <;> simp [List.filterMap_cons, List.filter_cons, h, ih]

/-- C2 fails as stated: a catalog entry whose `linear` value is the truthy
string `"x"` (not the boolean `true`) is returned by the code but excluded
by the spec's "exactly those entries where `linear == true`". -/
theorem C2_counterexample :
    fetch_futures_pairs_data [("ABC/USDT:USDT", marketTruthyNotTrue)] ≠
      fetch_futures_pairs_spec [("ABC/USDT:USDT", marketTruthyNotTrue)] := by
  simp [fetch_futures_pairs_data, fetch_futures_pairs_spec, marketTruthyNotTrue,
        truthyOpt, pyTruthy, List.filterMap_cons]

/-- C2 (amended): `fetch_futures_pairs_data` returns exactly the catalog
entries whose `linear` and `active` values are truthy, in catalog order
(its output is a sublist of the per-entry pair records), with base/quote
passed through and `contract_size` defaulting to 1 — `mkPair` does the
pass-through, `fetch_futures_pairs_truthy` is the filter-then-map
phrasing. -/
theorem C2_pair_filter (markets : List (String × Market)) :
    fetch_futures_pairs_data markets = fetch_futures_pairs_truthy markets ∧
    (fetch_futures_pairs_data markets).Sublist
      (markets.map fun p => mkPair p.1 p.2) := by
  have h := filterMap_ite_eq_filter_map markets
    (fun p => truthyOpt p.2.linear && truthyOpt p.2.active)
  refine ⟨h, ?_⟩
  rw [show fetch_futures_pairs_data markets
        = (markets.filter fun p => truthyOpt p.2.linear && truthyOpt p.2.active).map
            (fun p => mkPair p.1 p.2) from h]
  exact (List.filter_sublist markets).map _

/-- C10: an entry whose `linear` or `active` is missing or carries any
falsy value (`None`, `False`, `0`, `0.0`, `""`) contributes nothing to
`fetch_futures_pairs_data` — the filter tests truthiness, so a missing
flag is treated exactly like a false one. -/
theorem C10_missing_or_falsy_excluded (ms₁ ms₂ : List (String × Market))
    (sym : String) (m : Market)
    (h : m.linear ∈ falsyGetResults ∨ m.active ∈ falsyGetResults) :
    fetch_futures_pairs_data (ms₁ ++ (sym, m) :: ms₂)
      = fetch_futures_pairs_data (ms₁ ++ ms₂) := by
  have hf : ¬ (truthyOpt m.linear = true ∧ truthyOpt m.active = true) := by
    simp only [falsyGetResults, List.mem_cons, List.not_mem_nil, or_false] at h
    rcases h with h | h <;>
      rcases h with h | h | h | h | h | h <;>
        simp [h, truthyOpt, pyTruthy]
  simp [fetch_futures_pairs_data, List.filterMap_append, List.filterMap_cons, hf]

/-- C10 at a concrete input: an entry missing its `linear` key is
excluded. -/
theorem C10_missing_or_falsy_excluded_witness :
    fetch_futures_pairs_data ([] ++ ("ABC/USDT:USDT", marketMissingLinear) :: [])
      = fetch_futures_pairs_data ([] ++ []) :=
  C10_missing_or_falsy_excluded [] [] "ABC/USDT:USDT" marketMissingLinear
    (Or.inl (by simp [falsyGetResults, marketMissingLinear]))

/-- Counting bid-level lines in the truncated bid block: one per taken
level. -/
theorem countP_bidLevel_take (n : Nat) (l : List (ℚ × ℚ)) :
    List.countP isBidLevel ((l.map fun b => ObLine.bidLevel b.1 b.2).take n)
      = min n l.length := by
  rw [← List.map_take, List.countP_map]
  have h : (isBidLevel ∘ fun b : ℚ × ℚ => ObLine.bidLevel b.1 b.2) = fun _ => true := rfl
  rw [h, List.countP_true, List.length_take]

/-- The ask block contains no bid-level lines. -/
theorem countP_bidLevel_take_asks (n : Nat) (l : List (ℚ × ℚ)) :
    List.countP isBidLevel ((l.map fun a => ObLine.askLevel a.1 a.2).take n) = 0 := by
  rw [← List.map_take, List.countP_map]
  simp [Function.comp, isBidLevel]

/-- Counting ask-level lines in the truncated ask block: one per taken
level. -/
theorem countP_askLevel_take (n : Nat) (l : List (ℚ × ℚ)) :
    List.countP isAskLevel ((l.map fun a => ObLine.askLevel a.1 a.2).take n)
      = min n l.length := by
  rw [← List.map_take, List.countP_map]
  have h : (isAskLevel ∘ fun a : ℚ × ℚ => ObLine.askLevel a.1 a.2) = fun _ => true := rfl
  rw [h, List.countP_true, List.length_take]

/-- The bid block contains no ask-level lines. -/
theorem countP_askLevel_take_bids (n : Nat) (l : List (ℚ × ℚ)) :
    List.countP isAskLevel ((l.map fun b => ObLine.bidLevel b.1 b.2).take n) = 0 := by
  rw [← List.map_take, List.countP_map]
  simp [Function.comp, isAskLevel]

/-- Level blocks contain no spread line. -/
theorem countP_spreadLine_take_bids (n : Nat) (l : List (ℚ × ℚ)) :
    List.countP isSpreadLine ((l.map fun b => ObLine.bidLevel b.1 b.2).take n) = 0 := by
  rw [← List.map_take, List.countP_map]
  simp [Function.comp, isSpreadLine]

/-- Level blocks contain no spread line (ask side). -/
theorem countP_spreadLine_take_asks (n : Nat) (l : List (ℚ × ℚ)) :
    List.countP isSpreadLine ((l.map fun a => ObLine.askLevel a.1 a.2).take n) = 0 := by
  rw [← List.map_take, List.countP_map]
  simp [Function.comp, isSpreadLine]

/-- The guarded spread block contains no level lines. -/
theorem countP_bidLevel_spreadLines (bids asks : List (ℚ × ℚ)) :
    List.countP isBidLevel (spreadLines bids asks) = 0 := by
  rcases bids with _ | ⟨⟨bp, ba⟩, bs⟩ <;> rcases asks with _ | ⟨⟨ap, aa⟩, as⟩ <;>
    simp [spreadLines, isBidLevel]

/-- The guarded spread block contains no level lines (ask side). -/
theorem countP_askLevel_spreadLines (bids asks : List (ℚ × ℚ)) :
    List.countP isAskLevel (spreadLines bids asks) = 0 := by
  rcases bids with _ | ⟨⟨bp, ba⟩, bs⟩ <;> rcases asks with _ | ⟨⟨ap, aa⟩, as⟩ <;>
    simp [spreadLines, isAskLevel]

/-- The spread block prints nothing when the bid side is empty. -/
theorem spreadLines_nil_left (asks : List (ℚ × ℚ)) : spreadLines [] asks = [] := by
  rcases asks with _ | ⟨⟨ap, aa⟩, as⟩ <;> rfl

/-- The spread block prints nothing when the ask side is empty. -/
theorem spreadLines_nil_right (bids : List (ℚ × ℚ)) : spreadLines bids [] = [] := by
  rcases bids with _ | ⟨⟨bp, ba⟩, bs⟩ <;> rfl

/-- The spread block raises nothing when the bid side is empty. -/
theorem spreadRaise_nil_left (asks : List (ℚ × ℚ)) : spreadRaise [] asks = Option.none := by
  rcases asks with _ | ⟨⟨ap, aa⟩, as⟩ <;> rfl

/-- The spread block raises nothing when the ask side is empty. -/
theorem spreadRaise_nil_right (bids : List (ℚ × ℚ)) : spreadRaise bids [] = Option.none := by
  rcases bids with _ | ⟨⟨bp, ba⟩, bs⟩ <;> rfl

/-- How many bid levels the `orderbook` command prints:
`min(10, len(bids), len(asks))`. -/
theorem orderbookRender_countP_bid (sym : String) (ts : Option Int)
    (bids asks : List (ℚ × ℚ)) :
    (orderbookRender sym ⟨ts, bids, asks⟩).countP isBidLevel
      = min (min 10 bids.length) asks.length := by
  simp [orderbookRender, List.countP_append, List.countP_cons, isBidLevel,
        countP_bidLevel_take, countP_bidLevel_take_asks, countP_bidLevel_spreadLines]

/-- How many ask levels the `orderbook` command prints:
`min(10, len(bids), len(asks))`. -/
theorem orderbookRender_countP_ask (sym : String) (ts : Option Int)
    (bids asks : List (ℚ × ℚ)) :
    (orderbookRender sym ⟨ts, bids, asks⟩).countP isAskLevel
      = min (min 10 bids.length) asks.length := by
  simp [orderbookRender, List.countP_append, List.countP_cons, isAskLevel,
        countP_askLevel_take, countP_askLevel_take_bids, countP_askLevel_spreadLines]

/-- Spread lines in the rendered output come only from the guarded spread
block. -/
theorem orderbookRender_countP_spread (sym : String) (ts : Option Int)
    (bids asks : List (ℚ × ℚ)) :
    (orderbookRender sym ⟨ts, bids, asks⟩).countP isSpreadLine
      = List.countP isSpreadLine (spreadLines bids asks) := by
  simp [orderbookRender, List.countP_append, List.countP_cons, isSpreadLine,
        countP_spreadLine_take_bids, countP_spreadLine_take_asks]

/-- C8: the `orderbook` command prints exactly
`min(10, len(bids), len(asks))` levels on each side; when either side is
empty, zero levels print for both sides even if the other side is
non-empty; and the rendered output is determined by the fetched snapshot
alone, independent of the requested depth limit. -/
theorem C8_display_limit (sym : String) (ob : OrderBookResp) :
    ((orderbookRender sym ob).countP isBidLevel
       = min (min 10 ob.bids.length) ob.asks.length) ∧
    ((orderbookRender sym ob).countP isAskLevel
       = min (min 10 ob.bids.length) ob.asks.length) ∧
    ((ob.bids = [] ∨ ob.asks = []) →
       (orderbookRender sym ob).countP isBidLevel = 0 ∧
       (orderbookRender sym ob).countP isAskLevel = 0) ∧
    (∀ fetch l₁ l₂, fetch sym l₁ = Except.ok ob → fetch sym l₂ = Except.ok ob →
       orderbookCmd fetch sym l₁ = orderbookCmd fetch sym l₂) := by
  obtain ⟨ts, bids, asks⟩ := ob
  refine ⟨orderbookRender_countP_bid sym ts bids asks,
          orderbookRender_countP_ask sym ts bids asks, ?_, ?_⟩
  · rintro (h | h) <;> subst h <;>
      rw [orderbookRender_countP_bid, orderbookRender_countP_ask] <;>
      simp
  · intro fetch l₁ l₂ h₁ h₂
    simp [orderbookCmd, h₁, h₂]

/-- C8 at a concrete input: with five bids and no asks, zero levels print
on both sides. -/
theorem C8_display_limit_witness :
    (orderbookRender "BTC/USDT:USDT" obFiveBidsNoAsks).countP isBidLevel = 0 ∧
    (orderbookRender "BTC/USDT:USDT" obFiveBidsNoAsks).countP isAskLevel = 0 :=
  (C8_display_limit "BTC/USDT:USDT" obFiveBidsNoAsks).2.2.1 (Or.inr rfl)

/-- C1 fails as stated: with five bids and zero asks the command prints
zero bid levels (the shared `display_limit = min(10, len(bids), len(asks))`
is 0), not the five the claim requires. -/
theorem C1_counterexample :
    obFiveBidsNoAsks.bids.length = 5 ∧ obFiveBidsNoAsks.asks.length = 0 ∧
    (orderbookRender "BTC/USDT:USDT" obFiveBidsNoAsks).countP isBidLevel = 0 ∧
    ¬ (orderbookRender "BTC/USDT:USDT" obFiveBidsNoAsks).countP isBidLevel
        = obFiveBidsNoAsks.bids.length := by
  have h := orderbookRender_countP_bid "BTC/USDT:USDT" (Option.some 1700000000000)
      [(5, 1), (4, 1), (3, 1), (2, 1), (1, 1)] []
  have h0 : (orderbookRender "BTC/USDT:USDT" obFiveBidsNoAsks).countP isBidLevel = 0 := by
    simpa [obFiveBidsNoAsks] using h
  refine ⟨rfl, rfl, h0, ?_⟩
  rw [h0]
  simp [obFiveBidsNoAsks]

/-- C1 (amended): for a response with five bids and zero asks, the command
prints zero bid levels (under the header "Top 0 Bids"), prints the header
"Top 0 Asks", omits the spread line, and completes without error (the
render is total). -/
theorem C1_five_bids_no_asks (sym : String) (ob : OrderBookResp)
    (h5 : ob.bids.length = 5) (h0 : ob.asks = []) :
    (orderbookRender sym ob).countP isBidLevel = 0 ∧
    ObLine.topBidsHeader 0 ∈ orderbookRender sym ob ∧
    ObLine.topAsksHeader 0 ∈ orderbookRender sym ob ∧
    (orderbookRender sym ob).countP isSpreadLine = 0 := by
  obtain ⟨ts, bids, asks⟩ := ob
  simp only at h5 h0
  subst h0
  refine ⟨?_, ?_, ?_, ?_⟩
  · rw [orderbookRender_countP_bid]; simp
  · simp [orderbookRender]
  · simp [orderbookRender]
  · rw [orderbookRender_countP_spread, spreadLines_nil_right]; rfl

/-- C1's amended behavior at the concrete five-bids/no-asks response. -/
theorem C1_five_bids_no_asks_witness :
    (orderbookRender "BTC/USDT:USDT" obFiveBidsNoAsks).countP isBidLevel = 0 ∧
    ObLine.topBidsHeader 0 ∈ orderbookRender "BTC/USDT:USDT" obFiveBidsNoAsks ∧
    ObLine.topAsksHeader 0 ∈ orderbookRender "BTC/USDT:USDT" obFiveBidsNoAsks ∧
    (orderbookRender "BTC/USDT:USDT" obFiveBidsNoAsks).countP isSpreadLine = 0 :=
  C1_five_bids_no_asks "BTC/USDT:USDT" obFiveBidsNoAsks rfl rfl

/-- C5 fails as stated, twice over: on a crossed snapshot (best bid 10,
best ask 5) the command displays the spread line with the negative spread
−5, so the claimed `spread ≥ 0` does not hold; and on a snapshot with
non-empty sides whose best ask price is 0, the claimed display does not
happen at all — the `spread / best_ask` division raises
`ZeroDivisionError` and no spread line is printed. -/
theorem C5_counterexample :
    ((ObLine.spreadLine (-5) (-100) ∈ orderbookRender "BTC/USDT:USDT" obCrossed) ∧
     ((-5 : ℚ) < 0)) ∧
    (obZeroAsk.bids ≠ [] ∧ obZeroAsk.asks ≠ [] ∧
     (orderbookRender "BTC/USDT:USDT" obZeroAsk).countP isSpreadLine = 0 ∧
     spreadRaise obZeroAsk.bids obZeroAsk.asks
       = Option.some "ZeroDivisionError: float division by zero") := by
  refine ⟨⟨?_, by norm_num⟩, ?_, ?_, ?_, ?_⟩
  · have h1 : ((5 : ℚ) - 10) = -5 := by norm_num
    have h2 : (((5 : ℚ) - 10) / 5 * 100) = -100 := by norm_num
    have h5 : ((5 : ℚ)) ≠ 0 := by norm_num
    simp [orderbookRender, obCrossed, spreadLines, h1, h2, h5]
  · simp [obZeroAsk]
  · simp [obZeroAsk]
  · rw [show obZeroAsk = ⟨Option.some 1700000000000, [(1, 1)], [(0, 2)]⟩ from rfl,
       orderbookRender_countP_spread]
    simp [spreadLines]
  · simp [obZeroAsk, spreadRaise]

/-- C5 (amended): when both sides are non-empty and the best ask price is
non-zero, the command computes and displays the spread line — carrying
`spread = best_ask − best_bid` (non-negative whenever the book is not
crossed, `best_bid ≤ best_ask`) and `spread_pct = spread / best_ask × 100`,
printed with 2-decimal precision by the display layer — and raises
nothing; when both sides are non-empty with best ask price 0, the
division raises `ZeroDivisionError` and no spread line is printed; when
either side is empty, no spread line is produced and no index or division
error is raised. -/
theorem C5_spread_guard (sym : String) (ob : OrderBookResp) :
    (∀ b a, b ∈ ob.bids.head? → a ∈ ob.asks.head? →
       (a.1 ≠ 0 →
          (ObLine.spreadLine (a.1 - b.1) ((a.1 - b.1) / a.1 * 100)
             ∈ orderbookRender sym ob) ∧
          spreadRaise ob.bids ob.asks = Option.none ∧
          (b.1 ≤ a.1 → 0 ≤ a.1 - b.1)) ∧
       (a.1 = 0 →
          spreadRaise ob.bids ob.asks
            = Option.some "ZeroDivisionError: float division by zero" ∧
          (orderbookRender sym ob).countP isSpreadLine = 0)) ∧
    ((ob.bids = [] ∨ ob.asks = []) →
       (orderbookRender sym ob).countP isSpreadLine = 0 ∧
       spreadRaise ob.bids ob.asks = Option.none) := by
  obtain ⟨ts, bids, asks⟩ := ob
  constructor
  · intro b a hb ha
    rcases bids with _ | ⟨b₀, bs⟩
    · simp at hb
    rcases asks with _ | ⟨a₀, as⟩
    · simp at ha
    simp only [List.head?_cons, Option.mem_def, Option.some.injEq] at hb ha
    subst hb; subst ha
    constructor
    · intro hz
      refine ⟨?_, ?_, fun hle => by linarith⟩
      · simp [orderbookRender, spreadLines, hz]
      · simp [spreadRaise, hz]
    · intro hz
      refine ⟨?_, ?_⟩
      · simp [spreadRaise, hz]
      · rw [orderbookRender_countP_spread]
        simp [spreadLines, hz]
  · rintro (h | h) <;> subst h
    · rw [orderbookRender_countP_spread, spreadLines_nil_left, spreadRaise_nil_left]
      exact ⟨rfl, rfl⟩
    · rw [orderbookRender_countP_spread, spreadLines_nil_right, spreadRaise_nil_right]
      exact ⟨rfl, rfl⟩

/-- C5's amended statement at a concrete response (bid 4, ask 5): the
spread line printed carries `5 − 4` and `(5 − 4) / 5 × 100`, and nothing
is raised. -/
theorem C5_spread_guard_witness :
    (ObLine.spreadLine ((5 : ℚ) - 4) (((5 : ℚ) - 4) / 5 * 100) ∈
       orderbookRender "BTC/USDT:USDT" obBid4Ask5) ∧
    spreadRaise obBid4Ask5.bids obBid4Ask5.asks = Option.none := by
  have h := (((C5_spread_guard "BTC/USDT:USDT" obBid4Ask5).1
    (4, 1) (5, 2) rfl rfl).1 (by norm_num))
  exact ⟨h.1, h.2.1⟩

/-- Splitting `buy_volume` over a concatenation. -/
theorem buy_volume_append (l₁ l₂ : List Trade) :
    buy_volume (l₁ ++ l₂) = buy_volume l₁ + buy_volume l₂ := by
  induction l₁ with
  | nil => simp [buy_volume]
  | cons t ts ih => simp [buy_volume, ih, add_assoc]

/-- Splitting `sell_volume` over a concatenation. -/
theorem sell_volume_append (l₁ l₂ : List Trade) :
    sell_volume (l₁ ++ l₂) = sell_volume l₁ + sell_volume l₂ := by
  induction l₁ with
  | nil => simp [sell_volume]
  | cons t ts ih => simp [sell_volume, ih, add_assoc]

/-- The value `buy_volume` is the sum of the amounts of the trades whose side is
exactly `"buy"`. -/
theorem buy_volume_eq_filter_sum (ts : List Trade) :
    buy_volume ts = ((ts.filter fun u => u.side = "buy").map Trade.amount).sum := by
  induction ts with
  | nil => rfl
  | cons t ts ih =>
    by_cases h : t.side = "buy" <;>
      simp [buy_volume, List.filter_cons, h, ih]

/-- The value `sell_volume` is the sum of the amounts of the trades whose side is
exactly `"sell"`. -/
theorem sell_volume_eq_filter_sum (ts : List Trade) :
    sell_volume ts = ((ts.filter fun u => u.side = "sell").map Trade.amount).sum := by
  induction ts with
  | nil => rfl
  | cons t ts ih =>
    by_cases h : t.side = "sell" <;>
      simp [sell_volume, List.filter_cons, h, ih]

/-- The per-trade rows contain no ratio line. -/
theorem countP_isRatioLine_rows (ts : List Trade) :
    List.countP isRatioLine
      ((lastTen ts).map fun t => TrLine.row t.timestamp (sideLabel t) t.price t.amount)
      = 0 := by
  rw [List.countP_map]
  have h : (isRatioLine ∘ fun t : Trade =>
      TrLine.row t.timestamp (sideLabel t) t.price t.amount) = fun _ => false := rfl
  rw [h, List.countP_false]
  rfl

/-- C3: when `total_volume > 0` the `trades` command emits the ratio line
with `buy_ratio = buy_volume/total×100` and
`sell_ratio = sell_volume/total×100`, and the two add up to exactly 100;
when `total_volume = 0` no ratio line is emitted (the zero guard skips the
division). -/
theorem C3_ratio (sym : String) (ts : List Trade) :
    (0 < total_volume ts →
       (TrLine.ratio (buy_volume ts / total_volume ts * 100)
          (sell_volume ts / total_volume ts * 100) ∈ tradesRender sym ts) ∧
       buy_volume ts / total_volume ts * 100 + sell_volume ts / total_volume ts * 100
         = 100) ∧
    (total_volume ts = 0 → (tradesRender sym ts).countP isRatioLine = 0) := by
  constructor
  · intro h
    constructor
    · simp [tradesRender, h]
    · have ht : total_volume ts ≠ 0 := ne_of_gt h
      have key : buy_volume ts / total_volume ts * 100
          + sell_volume ts / total_volume ts * 100
          = (buy_volume ts + sell_volume ts) / total_volume ts * 100 := by
        ring
      rw [key, show buy_volume ts + sell_volume ts = total_volume ts from rfl,
         div_self ht, one_mul]
  · intro h
    have hlt : ¬ 0 < total_volume ts := by rw [h]; exact lt_irrefl 0
    simp [tradesRender, hlt, List.countP_append, List.countP_cons, isRatioLine,
          countP_isRatioLine_rows]

/-- C3 at a concrete input: a single buy of amount 2 yields the ratio line
100% / 0% and the percentages sum to 100. -/
theorem C3_ratio_witness :
    (TrLine.ratio (buy_volume tsOneBuy / total_volume tsOneBuy * 100)
       (sell_volume tsOneBuy / total_volume tsOneBuy * 100)
       ∈ tradesRender "BTC/USDT:USDT" tsOneBuy) ∧
    buy_volume tsOneBuy / total_volume tsOneBuy * 100
      + sell_volume tsOneBuy / total_volume tsOneBuy * 100 = 100 :=
  (C3_ratio "BTC/USDT:USDT" tsOneBuy).1
    (by simp [total_volume, buy_volume, sell_volume, tsOneBuy])

/-- C9: a trade whose side is neither `"buy"` nor `"sell"` contributes to
neither volume (removing it changes nothing), the volumes are exactly the
filtered sums, `total_volume` can therefore fall short of the sum of all
amounts, and the per-trade display labels every non-`"buy"` trade
`"SELL"`. -/
theorem C9_side_partition (pre post : List Trade) (t : Trade)
    (hb : t.side ≠ "buy") (hs : t.side ≠ "sell") :
    buy_volume (pre ++ t :: post) = buy_volume (pre ++ post) ∧
    sell_volume (pre ++ t :: post) = sell_volume (pre ++ post) ∧
    sideLabel t = "SELL" ∧
    (∀ ts, buy_volume ts = ((ts.filter fun u => u.side = "buy").map Trade.amount).sum ∧
           sell_volume ts = ((ts.filter fun u => u.side = "sell").map Trade.amount).sum) ∧
    (∃ ts, total_volume ts < (ts.map Trade.amount).sum) := by
  refine ⟨?_, ?_, ?_, ?_, ?_⟩
  · rw [buy_volume_append, buy_volume_append]
    simp [buy_volume, hb]
  · rw [sell_volume_append, sell_volume_append]
    simp [sell_volume, hs]
  · simp [sideLabel, hb]
  · exact fun ts => ⟨buy_volume_eq_filter_sum ts, sell_volume_eq_filter_sum ts⟩
  · refine ⟨[tradeOther], ?_⟩
    simp [total_volume, buy_volume, sell_volume, tradeOther]

/-- C9 at a concrete input: a `"liquidation"` trade is excluded from both
volumes and displayed as SELL. -/
theorem C9_side_partition_witness :
    buy_volume ([] ++ tradeOther :: []) = buy_volume ([] ++ []) ∧
    sell_volume ([] ++ tradeOther :: []) = sell_volume ([] ++ []) ∧
    sideLabel tradeOther = "SELL" ∧
    (∀ ts, buy_volume ts = ((ts.filter fun u => u.side = "buy").map Trade.amount).sum ∧
           sell_volume ts = ((ts.filter fun u => u.side = "sell").map Trade.amount).sum) ∧
    (∃ ts, total_volume ts < (ts.map Trade.amount).sum) :=
  C9_side_partition [] [] tradeOther (by simp [tradeOther]) (by simp [tradeOther])

/-- C4: the `funding` command catches every failure of the premium-index
call — a raised error from the call itself, or an unexpected response
shape (missing key) — prints the inline error line, and returns normally
(the command's result is a plain line list; nothing propagates). -/
theorem C4_funding_catches (remote : String → Except String FundingResp) (sym : String) :
    (∀ e, remote (sym.replace "/" "") = Except.error e →
       fundingCmd remote sym
         = [FuLine.header sym,
            FuLine.errorLine ("Error fetching funding rate: " ++ e)]) ∧
    (∀ f, remote (sym.replace "/" "") = Except.ok f → (fundingPrints f).2.isSome →
       ∃ m, (fundingCmd remote sym).getLast?
         = Option.some (FuLine.errorLine m)) := by
  constructor
  · intro e he
    simp [fundingCmd, he]
  · intro f hf hsome
    rcases h : fundingPrints f with ⟨ls, e?⟩
    rcases e? with _ | e
    · rw [h] at hsome
      simp at hsome
    · refine ⟨"Error fetching funding rate: " ++ e, ?_⟩
      have hcmd : fundingCmd remote sym
          = (FuLine.header sym :: ls)
            ++ [FuLine.errorLine ("Error fetching funding rate: " ++ e)] := by
        simp [fundingCmd, hf, h]
      rw [hcmd, List.getLast?_concat]

/-- C4 at a concrete input: against a rejecting endpoint the command
returns the header plus the inline error line. -/
theorem C4_funding_catches_witness :
    fundingCmd remoteRejecting "BTC/USDT:USDT"
      = [FuLine.header "BTC/USDT:USDT",
         FuLine.errorLine ("Error fetching funding rate: " ++ "Invalid symbol")] :=
  (C4_funding_catches remoteRejecting "BTC/USDT:USDT").1 "Invalid symbol" rfl

/-- C6: legacy mode runs the pair listing, then the OHLCV, order book and
trades fetches strictly in sequence against the fixed defaults
(`"BTC/USDT:USDT"`, `"1h"`, limits 100/20/50) — it completes without a
re-raised error exactly when all four succeed — and every network,
exchange or generic library error is logged as the final short message
and re-raised (`some e`), so the process terminates non-zero. -/
theorem C6_legacy (ex : Exchange) :
    ((main_legacy ex).2 = Option.none ↔
       (∃ ms, ex.load_markets = Except.ok ms) ∧
       (∃ oh, ex.fetch_ohlcv "BTC/USDT:USDT" "1h" 100 = Except.ok oh) ∧
       (∃ ob, ex.fetch_order_book "BTC/USDT:USDT" 20 = Except.ok ob) ∧
       (∃ tr, ex.fetch_trades "BTC/USDT:USDT" 50 = Except.ok tr)) ∧
    (∀ e, (main_legacy ex).2 = Option.some e →
       (main_legacy ex).1.getLast? = Option.some (legacyLog e)) := by
  obtain ⟨lm, fo, fob, ft⟩ := ex
  rcases h1 : lm with e1 | ms
  · constructor
    · simp [main_legacy, h1]
    · intro e he
      simp [main_legacy, h1] at he ⊢
      simp [he]
  · rcases h2 : fo "BTC/USDT:USDT" "1h" 100 with e2 | oh
    · constructor
      · simp [main_legacy, h1, h2]
      · intro e he
        simp [main_legacy, h1, h2] at he ⊢
        simp [he, List.getLast?_cons]
    · rcases h3 : fob "BTC/USDT:USDT" 20 with e3 | ob
      · constructor
        · simp [main_legacy, h1, h2, h3]
        · intro e he
          simp [main_legacy, h1, h2, h3] at he ⊢
          simp [he, List.getLast?_cons]
      · rcases h4 : ft "BTC/USDT:USDT" 50 with e4 | tr
        · constructor
          · simp [main_legacy, h1, h2, h3, h4]
          · intro e he
            simp [main_legacy, h1, h2, h3, h4] at he ⊢
            simp [he, List.getLast?_cons]
        · constructor
          · simp [main_legacy, h1, h2, h3, h4]
          · intro e he
            simp [main_legacy, h1, h2, h3, h4] at he

/-- C6 at a concrete input: when the market-catalog call fails with a
network error, legacy mode logs it last and re-raises it. -/
theorem C6_legacy_witness :
    (main_legacy exchangeNetworkDown).1.getLast?
      = Option.some (legacyLog (CcxtError.network "Connection aborted")) :=
  (C6_legacy exchangeNetworkDown).2 (CcxtError.network "Connection aborted") rfl

/-- C7: for any positive limit N, a successful OHLCV fetch yields at most
N candles in non-decreasing timestamp order (the upstream contract), the
command passes the timeframe string through verbatim with no client-side
validation (the statement holds for every string `tf`), and a failing
fetch — e.g. an invalid timeframe rejected by the remote — propagates out
of the command as the re-raised error. -/
theorem C7_ohlcv (fetch : String → String → Nat → Except CcxtError (List Candle))
    (hc : OhlcvContract fetch) (sym tf : String) (N : Nat) (hN : 0 < N) :
    (∀ r, fetch sym tf N = Except.ok r →
       r.length ≤ N ∧
       List.Chain' (fun a b => a.timestamp ≤ b.timestamp) r ∧
       ohlcvCmd fetch sym tf N = (ohlcvRender sym tf N r, Option.none)) ∧
    (∀ e, fetch sym tf N = Except.error e →
       ohlcvCmd fetch sym tf N
         = ([OhLine.header sym, OhLine.params tf N], Option.some e)) := by
  constructor
  · intro r hr
    obtain ⟨hlen, hchain⟩ := hc sym tf N r hr
    exact ⟨hlen, hchain, by simp [ohlcvCmd, hr]⟩
  · intro e he
    simp [ohlcvCmd, he]

/-- C7 at a concrete input: the one-candle fetch satisfies the contract,
and at limit 1 the `ohlcv` command succeeds with one candle, at most the
limit, in order. -/
theorem C7_ohlcv_witness :
    ([oneCandle].length ≤ 1) ∧
    List.Chain' (fun a b => a.timestamp ≤ b.timestamp) [oneCandle] ∧
    ohlcvCmd fetchOneCandle "ETH/USDT:USDT" "4h" 1
      = (ohlcvRender "ETH/USDT:USDT" "4h" 1 [oneCandle], Option.none) := by
  have hc : OhlcvContract fetchOneCandle := by
    intro sym tf limit r hr
    simp only [fetchOneCandle, Except.ok.injEq] at hr
    subst hr
    rcases limit with _ | n <;> simp
  exact (C7_ohlcv fetchOneCandle hc "ETH/USDT:USDT" "4h" 1 (by decide)).1
    [oneCandle] (by simp [fetchOneCandle])
